import Mathlib

/-!
Verification of the pipeline orchestrator in
`src/orchestrator/langgraph_workflow.py`.

The orchestrator sequences seven stage agents plus a finalizer over a
mutable `WorkflowState`.  The external collaborator functions
(`run_ingestion`, `run_preprocessing`, ..., `semantic_query`) are out of
scope; they are modelled by a `Behavior` value describing the observable
outcome of calling them through `call_flexible`:
either the reference is absent (import failed), the call raised (all
attempts, including the no-argument retry, failed), or a value was
returned (possibly `None`).  Stage durations and the finalizer timestamp
are nondeterministic inputs; they are supplied by the environment `Env`.

Stage agent bodies are embedded as functions
`WorkflowState → WorkflowState ⊕ (WorkflowState × String)`:
`Sum.inl t` is a normal return of state `t`, and `Sum.inr (t, msg)` means
the body raised an exception with message `msg` while the (shared,
mutable) state object held value `t` at the moment of the raise.  The
`timed_stage` decorator appends its bookkeeping to that carried state,
exactly as the Python wrapper appends to the shared object.
-/

/-- A pipeline record (spec "Record"): an ordered string-keyed mapping. -/
abbrev Rec := List (String × String)

/-- One entry of `stage_durations`.  The Python success path appends
`{"stage": .., "duration": ..}` with no `"error"` key and the failure path
appends `{"stage": .., "duration": .., "error": True}`; the presence of the
`"error"` key is modelled by the boolean `error`. -/
structure DurEntry where
  stage : String
  duration : Nat
  error : Bool
deriving DecidableEq, Repr

/-- Values stored in the `stats` dictionary. -/
inductive StatVal where
  | nat (n : Nat)
  | bool (b : Bool)
  | str (s : String)
  | durs (l : List DurEntry)
deriving DecidableEq, Repr

/-- The `stats` dictionary, as an ordered association list. -/
abbrev Stats := List (String × StatVal)

/-- Python dictionary assignment `st[k] = v`: replace the value if the key
is present, otherwise append the pair. -/
def statsSet : Stats → String → StatVal → Stats
  | [], k, v => [(k, v)]
  | (k0, v0) :: rest, k, v =>
      if k0 = k then (k0, v) :: rest else (k0, v0) :: statsSet rest k v

/-- Python dictionary read `st[k]` (as an `Option`). -/
def statsGet : Stats → String → Option StatVal
  | [], _ => none
  | (k0, v0) :: rest, k => if k0 = k then some v0 else statsGet rest k

/-- A scalar-or-nested value inside a query result bundle. -/
inductive QVal where
  | str (s : String)
  | num (n : Int)
  | arr (xs : List QVal)

/-- One record of `query_results`, with fields `id`, `document`,
`distance`, `metadata`; `none` models Python `None`. -/
structure QueryRec where
  id : Option QVal
  document : Option QVal
  distance : Option QVal
  metadata : Option QVal

/-- The result bundle returned by the query collaborator: a dictionary
possibly holding any of the nine key aliases.  A field is `none` when the
key is missing (or its value is `None`, which `dict.get` makes
indistinguishable during parsing).  `extraKeys` records whether the
dictionary has further keys (or alias keys bound to `None`), which affects
only its truthiness. -/
structure Bundle where
  documents : Option (List QVal)
  docs : Option (List QVal)
  documents_list : Option (List QVal)
  ids : Option (List QVal)
  doc_ids : Option (List QVal)
  distances : Option (List QVal)
  scores : Option (List QVal)
  metadatas : Option (List QVal)
  metadata : Option (List QVal)
  extraKeys : Bool

/-- The bundle modelling the empty dictionary `{}`. -/
def emptyBundle : Bundle :=
  ⟨none, none, none, none, none, none, none, none, none, false⟩

/-- Python truthiness of the bundle dictionary (`if raw:`): a dict is
truthy iff it has at least one key. -/
def bundleTruthy (b : Bundle) : Bool :=
  b.extraKeys || b.documents.isSome || b.docs.isSome || b.documents_list.isSome ||
  b.ids.isSome || b.doc_ids.isSome || b.distances.isSome || b.scores.isSome ||
  b.metadatas.isSome || b.metadata.isSome

/-- The shape of a non-`None` value returned by a list-producing
collaborator, as the agents' normalization distinguishes them:
a table-like object with `to_dict("records")`, a Python list, some other
iterable accepted by `list(..)`, or a non-iterable value (on which
`list(..)` raises `TypeError`; `truthy` is its Python truthiness). -/
inductive RawResult where
  | table (rows : List Rec)
  | pylist (xs : List Rec)
  | iterable (xs : List Rec)
  | noniter (truthy : Bool)
deriving DecidableEq, Repr

/-- The observable outcome of one collaborator as seen through
`call_flexible`: the function reference is `None` (import failed), every
invocation attempt raised, or a value was returned (`returns none` models
returning Python `None`). -/
inductive Behavior (α : Type) where
  | absent
  | raises
  | returns (v : Option α)
deriving DecidableEq, Repr

/-- `call_flexible(fn, *args)`: returns the collaborator's result, or
`None` when the reference is absent or the call raised (the arity
inspection and no-argument retry only influence which of these outcomes
occurs, which `Behavior` already records). -/
def call_flexible {α : Type} : Behavior α → Option α
  | .absent => none
  | .raises => none
  | .returns v => v

/-- The run environment: one behavior per collaborator, the elapsed
duration measured for each stage, and the finalizer timestamp. -/
structure Env where
  ingestion : Behavior RawResult
  preprocessing : Behavior RawResult
  deduplication : Behavior RawResult
  ner : Behavior RawResult
  embedding : Behavior Bool
  impact : Behavior RawResult
  query : Behavior Bundle
  durOf : String → Nat
  timestamp : String

/-- The dataclass `WorkflowState`. -/
structure WorkflowState where
  raw_articles : List Rec
  preprocessed_articles : List Rec
  deduplicated_articles : List Rec
  extracted_entities : List Rec
  embeddings_indexed : Bool
  impact_scores : List Rec
  query : String
  query_results : List QueryRec
  current_stage : String
  stage_durations : List DurEntry
  errors : List String
  stats : Stats

/-- `WorkflowState(query=q)` with all other fields defaulted. -/
def initState (q : String) : WorkflowState :=
  { raw_articles := [], preprocessed_articles := [], deduplicated_articles := [],
    extracted_entities := [], embeddings_indexed := false, impact_scores := [],
    query := q, query_results := [], current_stage := "initialized",
    stage_durations := [], errors := [], stats := [] }

/-- Result of one stage body: normal return, or a raise carrying the state
at the moment of the raise together with the exception message. -/
abbrev StageRes := WorkflowState ⊕ (WorkflowState × String)

/-- The state held by the shared mutable object when the body finished
(normally or by raising). -/
def stateOf : StageRes → WorkflowState
  | .inl t => t
  | .inr (t, _) => t

/-- The `timed_stage(stage_name)` decorator: run the body; on normal
return append a success duration entry; on a raise append the formatted
error string (stage name, message, diagnostic trace) to `errors` and an
error-flagged duration entry, and return the state rather than
re-raising. -/
def timed_stage (name : String) (d : Nat)
    (f : WorkflowState → StageRes) (s : WorkflowState) : WorkflowState :=
  match f s with
  | .inl t => { t with stage_durations := t.stage_durations ++ [⟨name, d, false⟩] }
  | .inr (t, msg) =>
      { t with errors := t.errors ++ [name ++ ": " ++ msg ++ "\n<trace>"],
               stage_durations := t.stage_durations ++ [⟨name, d, true⟩] }

/-- Python `a or b` on lists: `b` when `a` is empty, else `a`. -/
def pyOr {α : Type} (a b : List α) : List α := if a.isEmpty then b else a

/-- `ingestion_agent`: call the ingestion collaborator, normalize the
result (`None` becomes `[]`; a table becomes its records; a non-list
iterable goes through `list(..)` when truthy and becomes `[]` when falsy;
a truthy non-iterable makes `list(..)` raise `TypeError`, which propagates
to the wrapper), then set `raw_articles`, `current_stage` and the
`raw_articles_count` stats key. -/
def ingestion_agent (env : Env) (s : WorkflowState) : StageRes :=
  let finish : List Rec → StageRes := fun articles =>
    .inl { s with raw_articles := articles,
                  current_stage := "ingestion_complete",
                  stats := statsSet s.stats "raw_articles_count" (.nat articles.length) }
  match call_flexible env.ingestion with
  | none => finish []
  | some (.table rows) => finish rows
  | some (.pylist xs) => finish xs
  | some (.iterable xs) => finish xs
  | some (.noniter truthy) =>
      if truthy then .inr (s, "TypeError: object is not iterable") else finish []

/-- `preprocessing_agent`: skip on empty `raw_articles`; on an absent or
failed collaborator fall back to `raw_articles` without advancing
`current_stage`; otherwise normalize (table / list / iterable, with a
`TypeError` raise for anything else) and advance `current_stage`. -/
def preprocessing_agent (env : Env) (s : WorkflowState) : StageRes :=
  let articles := s.raw_articles
  if articles.isEmpty then
    .inl { s with preprocessed_articles := [] }
  else
    match call_flexible env.preprocessing with
    | none => .inl { s with preprocessed_articles := articles }
    | some (.table rows) =>
        .inl { s with preprocessed_articles := rows, current_stage := "preprocessing_complete" }
    | some (.pylist xs) =>
        .inl { s with preprocessed_articles := xs, current_stage := "preprocessing_complete" }
    | some (.iterable xs) =>
        .inl { s with preprocessed_articles := xs, current_stage := "preprocessing_complete" }
    | some (.noniter _) =>
        .inr (s, "TypeError: run_preprocessing must return DataFrame/list/iterable")

/-- `deduplication_agent`: input is `preprocessed_articles or
raw_articles`; same skip / fallback / normalize pattern as
preprocessing. -/
def deduplication_agent (env : Env) (s : WorkflowState) : StageRes :=
  let input_list := pyOr s.preprocessed_articles s.raw_articles
  if input_list.isEmpty then
    .inl { s with deduplicated_articles := [] }
  else
    match call_flexible env.deduplication with
    | none => .inl { s with deduplicated_articles := input_list }
    | some (.table rows) =>
        .inl { s with deduplicated_articles := rows, current_stage := "deduplication_complete" }
    | some (.pylist xs) =>
        .inl { s with deduplicated_articles := xs, current_stage := "deduplication_complete" }
    | some (.iterable xs) =>
        .inl { s with deduplicated_articles := xs, current_stage := "deduplication_complete" }
    | some (.noniter _) =>
        .inr (s, "TypeError: run_deduplication must return DataFrame/list/iterable")

/-- `ner_agent`: input is the three-step fallback chain; on empty input
return without touching anything; store the result only when it is a
Python list, and in every non-empty-input case advance `current_stage`. -/
def ner_agent (env : Env) (s : WorkflowState) : StageRes :=
  let articles := pyOr s.deduplicated_articles (pyOr s.preprocessed_articles s.raw_articles)
  if articles.isEmpty then
    .inl s
  else
    match call_flexible env.ner with
    | some (.pylist xs) =>
        .inl { s with extracted_entities := xs, current_stage := "ner_complete" }
    | _ => .inl { s with current_stage := "ner_complete" }

/-- `embedding_agent`: on empty input set the flag to `False`; otherwise
`embeddings_indexed = bool(result) if result is not None else True`, so an
absent or failed collaborator (whose `call_flexible` outcome is `None`)
also yields `True`. -/
def embedding_agent (env : Env) (s : WorkflowState) : StageRes :=
  let articles := pyOr s.deduplicated_articles (pyOr s.preprocessed_articles s.raw_articles)
  if articles.isEmpty then
    .inl { s with embeddings_indexed := false }
  else
    match call_flexible env.embedding with
    | none => .inl { s with embeddings_indexed := true, current_stage := "embedding_complete" }
    | some b => .inl { s with embeddings_indexed := b, current_stage := "embedding_complete" }

/-- `impact_scoring_agent`: same pattern as preprocessing except that an
absent or failed collaborator degrades to the empty list. -/
def impact_scoring_agent (env : Env) (s : WorkflowState) : StageRes :=
  let articles := pyOr s.deduplicated_articles (pyOr s.preprocessed_articles s.raw_articles)
  if articles.isEmpty then
    .inl { s with impact_scores := [] }
  else
    match call_flexible env.impact with
    | none => .inl { s with impact_scores := [] }
    | some (.table rows) =>
        .inl { s with impact_scores := rows, current_stage := "impact_complete" }
    | some (.pylist xs) =>
        .inl { s with impact_scores := xs, current_stage := "impact_complete" }
    | some (.iterable xs) =>
        .inl { s with impact_scores := xs, current_stage := "impact_complete" }
    | some (.noniter _) =>
        .inr (s, "TypeError: run_impact_pipeline must return DataFrame/list/iterable")

/-- The alias chain `raw.get(k1) or raw.get(k2) or ... or []`: the first
present and non-empty value wins, else the empty list. -/
def firstTruthy : List (Option (List QVal)) → List QVal
  | [] => []
  | none :: rest => firstTruthy rest
  | some xs :: rest => if xs.isEmpty then firstTruthy rest else xs

/-- Unwrap one nesting level: `if v and isinstance(v[0], list): v = v[0]`. -/
def unwrapOne : List QVal → List QVal
  | QVal.arr ys :: _ => ys
  | xs => xs

/-- The `documents` array of a bundle after aliasing and unwrapping. -/
def bundleDocs (b : Bundle) : List QVal :=
  unwrapOne (firstTruthy [b.documents, b.docs, b.documents_list])

/-- The `ids` array of a bundle after aliasing and unwrapping. -/
def bundleIds (b : Bundle) : List QVal :=
  unwrapOne (firstTruthy [b.ids, b.doc_ids])

/-- The `distances` array of a bundle after aliasing and unwrapping. -/
def bundleDists (b : Bundle) : List QVal :=
  unwrapOne (firstTruthy [b.distances, b.scores])

/-- The `metadatas` array of a bundle after aliasing and unwrapping. -/
def bundleMetas (b : Bundle) : List QVal :=
  unwrapOne (firstTruthy [b.metadatas, b.metadata])

/-- The per-index zip of the query agent: one record per position up to
the longest array, `none` where an array is shorter. -/
def parseBundle (b : Bundle) : List QueryRec :=
  let docs := bundleDocs b
  let ids := bundleIds b
  let dists := bundleDists b
  let metas := bundleMetas b
  let n := max (max docs.length ids.length) (max dists.length metas.length)
  (List.range n).map (fun i => ⟨ids.get? i, docs.get? i, dists.get? i, metas.get? i⟩)

/-- Python `str.strip()`: drop leading and trailing whitespace.  (Defined
over the character list so that concrete instances reduce in the kernel.) -/
def pyStrip (s : String) : String :=
  String.mk (((s.data.dropWhile Char.isWhitespace).reverse.dropWhile Char.isWhitespace).reverse)

/-- `query_agent`: return unchanged when the stripped query is empty; when
`semantic_query` is absent set `query_results := []` and return without
advancing `current_stage`; otherwise call it, parse a truthy bundle (a
falsy or `None` result gives no records), store the results and advance
`current_stage`. -/
def query_agent (env : Env) (s : WorkflowState) : StageRes :=
  let q := pyStrip s.query
  if q.isEmpty then
    .inl s
  else
    match env.query with
    | .absent => .inl { s with query_results := [] }
    | qb =>
        let results :=
          match call_flexible qb with
          | some b => if bundleTruthy b then parseBundle b else []
          | none => []
        .inl { s with query_results := results, current_stage := "query_complete" }

/-- `finalize_agent`: replace `stats` wholesale with the nine-key summary
and mark the pipeline `finalized`.  Pure aggregation; never raises. -/
def finalize_agent (env : Env) (s : WorkflowState) : WorkflowState :=
  let total := s.stage_durations.foldl (fun acc e => acc + e.duration) 0
  { s with
    stats := [("workflow_complete", .bool true),
              ("total_duration_seconds", .nat total),
              ("stages_completed", .nat s.stage_durations.length),
              ("errors_count", .nat s.errors.length),
              ("timestamp", .str (env.timestamp ++ "Z")),
              ("stage_breakdown", .durs s.stage_durations),
              ("raw_articles_count", .nat s.raw_articles.length),
              ("unique_articles_count", .nat s.deduplicated_articles.length),
              ("query_results_count", .nat s.query_results.length)],
    current_stage := "finalized" }

/-- State after the ingestion stage of `run_full_pipeline(query)`. -/
def pipe1 (env : Env) (q : Option String) : WorkflowState :=
  timed_stage "ingestion" (env.durOf "ingestion") (ingestion_agent env) (initState (q.getD ""))

/-- State after the preprocessing stage. -/
def pipe2 (env : Env) (q : Option String) : WorkflowState :=
  timed_stage "preprocessing" (env.durOf "preprocessing") (preprocessing_agent env) (pipe1 env q)

/-- State after the deduplication stage. -/
def pipe3 (env : Env) (q : Option String) : WorkflowState :=
  timed_stage "deduplication" (env.durOf "deduplication") (deduplication_agent env) (pipe2 env q)

/-- State after the NER stage. -/
def pipe4 (env : Env) (q : Option String) : WorkflowState :=
  timed_stage "ner" (env.durOf "ner") (ner_agent env) (pipe3 env q)

/-- State after the embedding stage. -/
def pipe5 (env : Env) (q : Option String) : WorkflowState :=
  timed_stage "embedding" (env.durOf "embedding") (embedding_agent env) (pipe4 env q)

/-- State after the impact-scoring stage. -/
def pipe6 (env : Env) (q : Option String) : WorkflowState :=
  timed_stage "impact_scoring" (env.durOf "impact_scoring") (impact_scoring_agent env) (pipe5 env q)

/-- State after the conditional query stage: `if st.query:` runs the query
agent only when the (untrimmed) query field is non-empty. -/
def pipe7 (env : Env) (q : Option String) : WorkflowState :=
  if (pipe6 env q).query.isEmpty then pipe6 env q
  else timed_stage "query" (env.durOf "query") (query_agent env) (pipe6 env q)

/-- `run_full_pipeline(query=None)`: seed the state with `query or ""`,
run the six unconditional stages, the conditional query stage, and the
finalizer; return the final state. -/
def run_full_pipeline (env : Env) (q : Option String) : WorkflowState :=
  finalize_agent env (pipe7 env q)

/-- Whether a stage body outcome was a raise (the `"error": True` flag of
the duration entry the wrapper appends). -/
def errFlag : StageRes → Bool
  | .inl _ => false
  | .inr _ => true

/-- The error strings the wrapper appends for a stage body outcome:
none on success, one formatted entry on a raise. -/
def msgsOf (nm : String) : StageRes → List String
  | .inl _ => []
  | .inr (_, msg) => [nm ++ ": " ++ msg ++ "\n<trace>"]

/-- The embedding-success value the agent derives from the collaborator
behavior: `bool(result)` for a returned non-`None` value, `True` in every
case whose `call_flexible` outcome is `None` (absent reference, raised
call, or returned `None`). -/
def embSuccess : Behavior Bool → Bool
  | .returns (some b) => b
  | _ => true

/-- Closed form of the wrapper: the result is the body's carried state with
one duration entry appended and the raise message (if any) appended. -/
theorem timed_stage_spec (nm : String) (d : Nat) (f : WorkflowState → StageRes) (s : WorkflowState) :
    timed_stage nm d f s =
      { stateOf (f s) with
        stage_durations := (stateOf (f s)).stage_durations ++ [⟨nm, d, errFlag (f s)⟩],
        errors := (stateOf (f s)).errors ++ msgsOf nm (f s) } := by
  cases h : f s with
  | inl t => simp [timed_stage, h, stateOf, errFlag, msgsOf]
  | inr p => obtain ⟨t, msg⟩ := p; simp [timed_stage, h, stateOf, errFlag, msgsOf]

/-- The ingestion body only ever changes `raw_articles`, `current_stage`
and `stats`. -/
theorem ingestion_agent_shape (env : Env) (s : WorkflowState) :
    ∃ ra cs st2, stateOf (ingestion_agent env s) =
      { s with raw_articles := ra, current_stage := cs, stats := st2 } := by
  unfold ingestion_agent
  cases hc : call_flexible env.ingestion with
  | none =>
      exact ⟨[], "ingestion_complete", statsSet s.stats "raw_articles_count" (.nat 0),
        by simp [hc, stateOf]⟩
  | some r =>
      cases r with
      | table rows =>
          exact ⟨rows, "ingestion_complete", statsSet s.stats "raw_articles_count" (.nat rows.length),
            by simp [hc, stateOf]⟩
      | pylist xs =>
          exact ⟨xs, "ingestion_complete", statsSet s.stats "raw_articles_count" (.nat xs.length),
            by simp [hc, stateOf]⟩
      | iterable xs =>
          exact ⟨xs, "ingestion_complete", statsSet s.stats "raw_articles_count" (.nat xs.length),
            by simp [hc, stateOf]⟩
      | noniter t =>
          cases t with
          | true => exact ⟨s.raw_articles, s.current_stage, s.stats, by simp [hc, stateOf]⟩
          | false =>
              exact ⟨[], "ingestion_complete", statsSet s.stats "raw_articles_count" (.nat 0),
                by simp [hc, stateOf]⟩

/-- The preprocessing body only ever changes `preprocessed_articles` and
`current_stage`. -/
theorem preprocessing_agent_shape (env : Env) (s : WorkflowState) :
    ∃ pa cs, stateOf (preprocessing_agent env s) =
      { s with preprocessed_articles := pa, current_stage := cs } := by
  unfold preprocessing_agent
  cases h : s.raw_articles.isEmpty
  · cases hc : call_flexible env.preprocessing with
    | none => exact ⟨s.raw_articles, s.current_stage, by simp [h, hc, stateOf]⟩
    | some r =>
        cases r with
        | table rows => exact ⟨rows, "preprocessing_complete", by simp [h, hc, stateOf]⟩
        | pylist xs => exact ⟨xs, "preprocessing_complete", by simp [h, hc, stateOf]⟩
        | iterable xs => exact ⟨xs, "preprocessing_complete", by simp [h, hc, stateOf]⟩
        | noniter t => exact ⟨s.preprocessed_articles, s.current_stage, by simp [h, hc, stateOf]⟩
  · exact ⟨[], s.current_stage, by simp [h, stateOf]⟩

/-- The deduplication body only ever changes `deduplicated_articles` and
`current_stage`. -/
theorem deduplication_agent_shape (env : Env) (s : WorkflowState) :
    ∃ da cs, stateOf (deduplication_agent env s) =
      { s with deduplicated_articles := da, current_stage := cs } := by
  unfold deduplication_agent
  cases h : (pyOr s.preprocessed_articles s.raw_articles).isEmpty
  · cases hc : call_flexible env.deduplication with
    | none => exact ⟨pyOr s.preprocessed_articles s.raw_articles, s.current_stage, by simp [h, hc, stateOf]⟩
    | some r =>
        cases r with
        | table rows => exact ⟨rows, "deduplication_complete", by simp [h, hc, stateOf]⟩
        | pylist xs => exact ⟨xs, "deduplication_complete", by simp [h, hc, stateOf]⟩
        | iterable xs => exact ⟨xs, "deduplication_complete", by simp [h, hc, stateOf]⟩
        | noniter t => exact ⟨s.deduplicated_articles, s.current_stage, by simp [h, hc, stateOf]⟩
  · exact ⟨[], s.current_stage, by simp [h, stateOf]⟩

/-- The NER body only ever changes `extracted_entities` and
`current_stage`, and never raises. -/
theorem ner_agent_shape (env : Env) (s : WorkflowState) :
    ∃ ee cs, ner_agent env s =
      .inl { s with extracted_entities := ee, current_stage := cs } := by
  unfold ner_agent
  cases h : (pyOr s.deduplicated_articles (pyOr s.preprocessed_articles s.raw_articles)).isEmpty
  · cases hc : call_flexible env.ner with
    | none => exact ⟨s.extracted_entities, "ner_complete", by simp [h, hc]⟩
    | some r =>
        cases r with
        | table rows => exact ⟨s.extracted_entities, "ner_complete", by simp [h, hc]⟩
        | pylist xs => exact ⟨xs, "ner_complete", by simp [h, hc]⟩
        | iterable xs => exact ⟨s.extracted_entities, "ner_complete", by simp [h, hc]⟩
        | noniter t => exact ⟨s.extracted_entities, "ner_complete", by simp [h, hc]⟩
  · exact ⟨s.extracted_entities, s.current_stage, by simp [h]⟩

/-- The embedding body only ever changes `embeddings_indexed` and
`current_stage`, and never raises. -/
theorem embedding_agent_shape (env : Env) (s : WorkflowState) :
    ∃ b cs, embedding_agent env s =
      .inl { s with embeddings_indexed := b, current_stage := cs } := by
  unfold embedding_agent
  cases h : (pyOr s.deduplicated_articles (pyOr s.preprocessed_articles s.raw_articles)).isEmpty
  · cases hc : call_flexible env.embedding with
    | none => exact ⟨true, "embedding_complete", by simp [h, hc]⟩
    | some b => exact ⟨b, "embedding_complete", by simp [h, hc]⟩
  · exact ⟨false, s.current_stage, by simp [h]⟩

/-- The impact-scoring body only ever changes `impact_scores` and
`current_stage`. -/
theorem impact_scoring_agent_shape (env : Env) (s : WorkflowState) :
    ∃ im cs, stateOf (impact_scoring_agent env s) =
      { s with impact_scores := im, current_stage := cs } := by
  unfold impact_scoring_agent
  cases h : (pyOr s.deduplicated_articles (pyOr s.preprocessed_articles s.raw_articles)).isEmpty
  · cases hc : call_flexible env.impact with
    | none => exact ⟨[], s.current_stage, by simp [h, hc, stateOf]⟩
    | some r =>
        cases r with
        | table rows => exact ⟨rows, "impact_complete", by simp [h, hc, stateOf]⟩
        | pylist xs => exact ⟨xs, "impact_complete", by simp [h, hc, stateOf]⟩
        | iterable xs => exact ⟨xs, "impact_complete", by simp [h, hc, stateOf]⟩
        | noniter t => exact ⟨s.impact_scores, s.current_stage, by simp [h, hc, stateOf]⟩
  · exact ⟨[], s.current_stage, by simp [h, stateOf]⟩

/-- The query body only ever changes `query_results` and `current_stage`,
and never raises. -/
theorem query_agent_shape (env : Env) (s : WorkflowState) :
    ∃ qr cs, query_agent env s =
      .inl { s with query_results := qr, current_stage := cs } := by
  unfold query_agent
  cases h : (pyStrip s.query).isEmpty
  · cases hq : env.query with
    | absent => exact ⟨[], s.current_stage, by simp [h, hq]⟩
    | raises => exact ⟨[], "query_complete", by simp [h, hq, call_flexible]⟩
    | returns v =>
        exact ⟨v.elim [] (fun b => if bundleTruthy b then parseBundle b else []),
          "query_complete", by cases v <;> simp [h, hq, call_flexible]⟩
  · exact ⟨s.query_results, s.current_stage, by simp [h]⟩

/-- Facts about the state after the ingestion stage: the query string is
the seeded one, no query results or durations beyond the single ingestion
entry exist, and the embedding flag is still false. -/
theorem pipe1_proj (env : Env) (q : Option String) :
    (pipe1 env q).query = q.getD "" ∧
    (pipe1 env q).query_results = [] ∧
    (pipe1 env q).stage_durations.map DurEntry.stage = ["ingestion"] ∧
    (pipe1 env q).embeddings_indexed = false := by
  obtain ⟨ra, cs, st2, hsh⟩ := ingestion_agent_shape env (initState (q.getD ""))
  have e := timed_stage_spec "ingestion" (env.durOf "ingestion") (ingestion_agent env)
    (initState (q.getD ""))
  refine ⟨?_, ?_, ?_, ?_⟩ <;> simp only [pipe1] <;> rw [e, hsh] <;> simp [initState]

/-- Only the ingestion agent can have written `stats` so far: after the
ingestion stage the mapping is empty (the body raised) or holds exactly
the `raw_articles_count` key. -/
theorem pipe1_stats (env : Env) (q : Option String) :
    (pipe1 env q).stats = [] ∨
    ∃ n, (pipe1 env q).stats = [("raw_articles_count", StatVal.nat n)] := by
  simp only [pipe1, timed_stage_spec]
  unfold ingestion_agent
  cases hc : call_flexible env.ingestion with
  | none => exact .inr ⟨0, by simp [hc, stateOf, initState, statsSet]⟩
  | some r =>
      cases r with
      | table rows => exact .inr ⟨rows.length, by simp [hc, stateOf, initState, statsSet]⟩
      | pylist xs => exact .inr ⟨xs.length, by simp [hc, stateOf, initState, statsSet]⟩
      | iterable xs => exact .inr ⟨xs.length, by simp [hc, stateOf, initState, statsSet]⟩
      | noniter t =>
          cases t with
          | true => exact .inl (by simp [hc, stateOf, initState])
          | false => exact .inr ⟨0, by simp [hc, stateOf, initState, statsSet]⟩

/-- The preprocessing stage preserves the query string, the query
results, the stats mapping and the embedding flag, and appends exactly one
duration entry named after itself. -/
theorem pipe2_proj (env : Env) (q : Option String) :
    (pipe2 env q).query = (pipe1 env q).query ∧
    (pipe2 env q).query_results = (pipe1 env q).query_results ∧
    (pipe2 env q).stats = (pipe1 env q).stats ∧
    (pipe2 env q).stage_durations.map DurEntry.stage =
      (pipe1 env q).stage_durations.map DurEntry.stage ++ ["preprocessing"] ∧
    (pipe2 env q).embeddings_indexed = (pipe1 env q).embeddings_indexed := by
  obtain ⟨pa, cs, hsh⟩ := preprocessing_agent_shape env (pipe1 env q)
  refine ⟨?_, ?_, ?_, ?_, ?_⟩ <;> simp [pipe2, timed_stage_spec, hsh]

/-- The deduplication stage preserves the same fields and appends its own
duration entry. -/
theorem pipe3_proj (env : Env) (q : Option String) :
    (pipe3 env q).query = (pipe2 env q).query ∧
    (pipe3 env q).query_results = (pipe2 env q).query_results ∧
    (pipe3 env q).stats = (pipe2 env q).stats ∧
    (pipe3 env q).stage_durations.map DurEntry.stage =
      (pipe2 env q).stage_durations.map DurEntry.stage ++ ["deduplication"] ∧
    (pipe3 env q).embeddings_indexed = (pipe2 env q).embeddings_indexed := by
  obtain ⟨da, cs, hsh⟩ := deduplication_agent_shape env (pipe2 env q)
  refine ⟨?_, ?_, ?_, ?_, ?_⟩ <;> simp [pipe3, timed_stage_spec, hsh]

/-- The NER stage preserves the same fields and appends its own duration
entry. -/
theorem pipe4_proj (env : Env) (q : Option String) :
    (pipe4 env q).query = (pipe3 env q).query ∧
    (pipe4 env q).query_results = (pipe3 env q).query_results ∧
    (pipe4 env q).stats = (pipe3 env q).stats ∧
    (pipe4 env q).stage_durations.map DurEntry.stage =
      (pipe3 env q).stage_durations.map DurEntry.stage ++ ["ner"] ∧
    (pipe4 env q).embeddings_indexed = (pipe3 env q).embeddings_indexed := by
  obtain ⟨ee, cs, hsh⟩ := ner_agent_shape env (pipe3 env q)
  refine ⟨?_, ?_, ?_, ?_, ?_⟩ <;> simp [pipe4, timed_stage_spec, hsh, stateOf]

/-- The embedding stage preserves query data and stats and appends its own
duration entry. -/
theorem pipe5_proj (env : Env) (q : Option String) :
    (pipe5 env q).query = (pipe4 env q).query ∧
    (pipe5 env q).query_results = (pipe4 env q).query_results ∧
    (pipe5 env q).stats = (pipe4 env q).stats ∧
    (pipe5 env q).stage_durations.map DurEntry.stage =
      (pipe4 env q).stage_durations.map DurEntry.stage ++ ["embedding"] := by
  obtain ⟨b, cs, hsh⟩ := embedding_agent_shape env (pipe4 env q)
  refine ⟨?_, ?_, ?_, ?_⟩ <;> simp [pipe5, timed_stage_spec, hsh, stateOf]

/-- The impact stage preserves the same fields, including the embedding
flag, and appends its own duration entry. -/
theorem pipe6_proj (env : Env) (q : Option String) :
    (pipe6 env q).query = (pipe5 env q).query ∧
    (pipe6 env q).query_results = (pipe5 env q).query_results ∧
    (pipe6 env q).stats = (pipe5 env q).stats ∧
    (pipe6 env q).stage_durations.map DurEntry.stage =
      (pipe5 env q).stage_durations.map DurEntry.stage ++ ["impact_scoring"] ∧
    (pipe6 env q).embeddings_indexed = (pipe5 env q).embeddings_indexed := by
  obtain ⟨im, cs, hsh⟩ := impact_scoring_agent_shape env (pipe5 env q)
  refine ⟨?_, ?_, ?_, ?_, ?_⟩ <;> simp [pipe6, timed_stage_spec, hsh]

/-- Accumulated facts after the six unconditional stages. -/
theorem pipe6_facts (env : Env) (q : Option String) :
    (pipe6 env q).query = q.getD "" ∧
    (pipe6 env q).query_results = [] ∧
    (pipe6 env q).stats = (pipe1 env q).stats ∧
    (pipe6 env q).stage_durations.map DurEntry.stage =
      ["ingestion", "preprocessing", "deduplication", "ner", "embedding", "impact_scoring"] := by
  obtain ⟨a1, b1, c1, _⟩ := pipe1_proj env q
  obtain ⟨a2, b2, c2, d2, _⟩ := pipe2_proj env q
  obtain ⟨a3, b3, c3, d3, _⟩ := pipe3_proj env q
  obtain ⟨a4, b4, c4, d4, _⟩ := pipe4_proj env q
  obtain ⟨a5, b5, c5, d5⟩ := pipe5_proj env q
  obtain ⟨a6, b6, c6, d6, _⟩ := pipe6_proj env q
  refine ⟨by rw [a6, a5, a4, a3, a2, a1], by rw [b6, b5, b4, b3, b2, b1], ?_, ?_⟩
  · rw [c6, c5, c4, c3, c2]
  · rw [d6, d5, d4, d3, d2, c1]; simp

/-- When the stripped query is empty the query body returns the state
unchanged (the work is skipped, but the wrapper still runs). -/
theorem query_agent_trim_empty (env : Env) (s : WorkflowState)
    (h : (pyStrip s.query).isEmpty = true) : query_agent env s = .inl s := by
  unfold query_agent
  simp [h]

/-- Facts after the conditional query stage: the duration-entry names end
with `"query"` exactly when the raw (untrimmed) query string is non-empty;
stats and the embedding flag pass through; and a query whose stripped form
is empty leaves `query_results` empty. -/
theorem pipe7_facts (env : Env) (q : Option String) :
    (pipe7 env q).stage_durations.map DurEntry.stage =
      ["ingestion", "preprocessing", "deduplication", "ner", "embedding", "impact_scoring"]
        ++ (if (q.getD "").isEmpty then [] else ["query"]) ∧
    (pipe7 env q).stats = (pipe6 env q).stats ∧
    (pipe7 env q).embeddings_indexed = (pipe6 env q).embeddings_indexed ∧
    ((pyStrip (q.getD "")).isEmpty = true → (pipe7 env q).query_results = []) := by
  obtain ⟨hq, hqr, hst, hdur⟩ := pipe6_facts env q
  cases h : (q.getD "").isEmpty with
  | true =>
      have h7 : pipe7 env q = pipe6 env q := by simp [pipe7, hq, h]
      exact ⟨by simp [h7, hdur, h], by simp [h7], by simp [h7], fun _ => by simp [h7, hqr]⟩
  | false =>
      have h7 : pipe7 env q =
          timed_stage "query" (env.durOf "query") (query_agent env) (pipe6 env q) := by
        simp [pipe7, hq, h]
      refine ⟨?_, ?_, ?_, ?_⟩
      · obtain ⟨qr, cs, hsh⟩ := query_agent_shape env (pipe6 env q)
        rw [h7, timed_stage_spec, hsh]
        simp [stateOf, hdur, h]
      · obtain ⟨qr, cs, hsh⟩ := query_agent_shape env (pipe6 env q)
        rw [h7, timed_stage_spec, hsh]
        simp [stateOf]
      · obtain ⟨qr, cs, hsh⟩ := query_agent_shape env (pipe6 env q)
        rw [h7, timed_stage_spec, hsh]
        simp [stateOf]
      · intro ht
        have hsk : query_agent env (pipe6 env q) = .inl (pipe6 env q) :=
          query_agent_trim_empty env (pipe6 env q) (by rw [hq]; exact ht)
        rw [h7, timed_stage_spec, hsk]
        simp [stateOf, hqr]

/-- C1: for every optional query string input, `run_full_pipeline` yields
a workflow state (it is a total function of the embedded semantics: every
raise is contained by `timed_stage` and the finalizer is pure), whose
`current_stage` is `"finalized"` and whose `stats["stages_completed"]`
equals the length of `stage_durations`. -/
theorem run_full_pipeline_finalizes (env : Env) (q : Option String) :
    (run_full_pipeline env q).current_stage = "finalized" ∧
    statsGet (run_full_pipeline env q).stats "stages_completed" =
      some (.nat (run_full_pipeline env q).stage_durations.length) := by
  unfold run_full_pipeline finalize_agent
  exact ⟨rfl, by simp [statsGet]⟩

/-- C2: in every run, under every behavior of the seven collaborators,
`stage_durations` holds exactly one entry per attempted stage, in order
and named after the stage: the six unconditional stages, plus `"query"`
exactly when the raw query string is non-empty (6 or 7 entries). -/
theorem stage_durations_one_per_attempted_stage (env : Env) (q : Option String) :
    (run_full_pipeline env q).stage_durations.map DurEntry.stage =
      ["ingestion", "preprocessing", "deduplication", "ner", "embedding", "impact_scoring"]
        ++ (if (q.getD "").isEmpty then [] else ["query"]) ∧
    (run_full_pipeline env q).stage_durations.length =
      (if (q.getD "").isEmpty then 6 else 7) := by
  obtain ⟨hdur, _, _, _⟩ := pipe7_facts env q
  have hfin : (run_full_pipeline env q).stage_durations = (pipe7 env q).stage_durations := rfl
  refine ⟨by rw [hfin]; exact hdur, ?_⟩
  have hl := congrArg List.length hdur
  rw [List.length_map] at hl
  rw [hfin, hl]
  cases h : (q.getD "").isEmpty <;> simp [h]

/-- A run environment in which every collaborator reference failed to
resolve. -/
def envAllAbsent : Env :=
  { ingestion := .absent, preprocessing := .absent, deduplication := .absent,
    ner := .absent, embedding := .absent, impact := .absent, query := .absent,
    durOf := fun _ => 0, timestamp := "2026-01-01T00:00:00" }

/-- The environment of the C3 scenario: the ingestion collaborator raises
when called. -/
def envC3 : Env := { envAllAbsent with ingestion := .raises }

/-- C3 refutation: when the ingestion collaborator raises, `call_flexible`
swallows the fault and returns `None`, so — contrary to the claim — the
final `errors` is empty (not one entry), `errors_count` is 0 (not 1), and
`current_stage` advances to `"ingestion_complete"` (it does not stay
`"initialized"`). -/
theorem ingestion_raise_counterexample :
    envC3.ingestion = Behavior.raises ∧
    (run_full_pipeline envC3 none).errors = [] ∧
    statsGet (run_full_pipeline envC3 none).stats "errors_count" = some (StatVal.nat 0) ∧
    (pipe1 envC3 none).current_stage = "ingestion_complete" := by
  exact ⟨rfl, rfl, rfl, rfl⟩

/-- C3 as amended: when the ingestion collaborator raises, the Invocation
Adapter swallows the fault, so the run ends with `raw_articles == []`, an
empty `errors` (zero entries, `errors_count == 0`), every downstream stage
recording an empty-input skip (all data fields empty, the embedding flag
false, no error-flagged duration entry), and `current_stage` advancing to
`"ingestion_complete"` — not staying `"initialized"` — where it remains
until the finalizer sets `"finalized"`. -/
theorem ingestion_raise_swallowed (env : Env) (q : Option String)
    (h : env.ingestion = Behavior.raises) :
    (run_full_pipeline env q).raw_articles = [] ∧
    (run_full_pipeline env q).preprocessed_articles = [] ∧
    (run_full_pipeline env q).deduplicated_articles = [] ∧
    (run_full_pipeline env q).impact_scores = [] ∧
    (run_full_pipeline env q).embeddings_indexed = false ∧
    (run_full_pipeline env q).errors = [] ∧
    (pipe6 env q).current_stage = "ingestion_complete" ∧
    ((q.getD "").isEmpty = true → (pipe7 env q).current_stage = "ingestion_complete") ∧
    (run_full_pipeline env q).current_stage = "finalized" ∧
    statsGet (run_full_pipeline env q).stats "errors_count" = some (StatVal.nat 0) ∧
    (∀ e ∈ (run_full_pipeline env q).stage_durations, e.error = false) := by
  have e6 : pipe6 env q =
      { raw_articles := [], preprocessed_articles := [], deduplicated_articles := [],
        extracted_entities := [], embeddings_indexed := false, impact_scores := [],
        query := q.getD "", query_results := [], current_stage := "ingestion_complete",
        stage_durations :=
          [⟨"ingestion", env.durOf "ingestion", false⟩,
           ⟨"preprocessing", env.durOf "preprocessing", false⟩,
           ⟨"deduplication", env.durOf "deduplication", false⟩,
           ⟨"ner", env.durOf "ner", false⟩,
           ⟨"embedding", env.durOf "embedding", false⟩,
           ⟨"impact_scoring", env.durOf "impact_scoring", false⟩],
        errors := [], stats := [("raw_articles_count", StatVal.nat 0)] } := by
    simp [pipe6, pipe5, pipe4, pipe3, pipe2, pipe1, timed_stage, ingestion_agent,
      preprocessing_agent, deduplication_agent, ner_agent, embedding_agent,
      impact_scoring_agent, h, call_flexible, initState, statsSet, pyOr]
  obtain ⟨qr, cs, hsh⟩ := query_agent_shape env (pipe6 env q)
  have h7 :
      (pipe7 env q).raw_articles = [] ∧
      (pipe7 env q).preprocessed_articles = [] ∧
      (pipe7 env q).deduplicated_articles = [] ∧
      (pipe7 env q).impact_scores = [] ∧
      (pipe7 env q).embeddings_indexed = false ∧
      (pipe7 env q).errors = [] ∧
      (∀ e ∈ (pipe7 env q).stage_durations, e.error = false) := by
    unfold pipe7
    cases h0 : (pipe6 env q).query.isEmpty with
    | true =>
        refine ⟨?_, ?_, ?_, ?_, ?_, ?_, ?_⟩ <;> simp [e6]
    | false =>
        simp only [Bool.false_eq_true, if_false]
        rw [timed_stage_spec, hsh]
        refine ⟨?_, ?_, ?_, ?_, ?_, ?_, ?_⟩ <;> simp [stateOf, msgsOf, errFlag, e6]
  obtain ⟨h7a, h7b, h7c, h7d, h7e, h7f, h7g⟩ := h7
  refine ⟨h7a, h7b, h7c, h7d, h7e, h7f, by simp [e6], ?_, rfl, ?_, ?_⟩
  · intro hq0
    have : (pipe6 env q).query.isEmpty = true := by rw [e6]; exact hq0
    simp only [pipe7, this, if_true]
    rw [e6]
  · show statsGet (finalize_agent env (pipe7 env q)).stats "errors_count" = some (StatVal.nat 0)
    simp [finalize_agent, statsGet, h7f]
  · intro e he
    exact h7g e he

/-- Witness for the amended C3 theorem at the concrete environment
`envC3` with no query. -/
theorem ingestion_raise_swallowed_witness :
    (run_full_pipeline envC3 none).raw_articles = [] ∧
    (run_full_pipeline envC3 none).preprocessed_articles = [] ∧
    (run_full_pipeline envC3 none).deduplicated_articles = [] ∧
    (run_full_pipeline envC3 none).impact_scores = [] ∧
    (run_full_pipeline envC3 none).embeddings_indexed = false ∧
    (run_full_pipeline envC3 none).errors = [] ∧
    (pipe6 envC3 none).current_stage = "ingestion_complete" ∧
    (((none : Option String).getD "").isEmpty = true →
      (pipe7 envC3 none).current_stage = "ingestion_complete") ∧
    (run_full_pipeline envC3 none).current_stage = "finalized" ∧
    statsGet (run_full_pipeline envC3 none).stats "errors_count" = some (StatVal.nat 0) ∧
    (∀ e ∈ (run_full_pipeline envC3 none).stage_durations, e.error = false) :=
  ingestion_raise_swallowed envC3 none rfl

/-- An environment in which ingestion returns one article and every other
collaborator reference is absent. -/
def envIngestOne : Env :=
  { envAllAbsent with ingestion := .returns (some (.pylist [[("title", "a")]])) }

/-- C4 refutation: with the preprocessing collaborator absent and a
non-empty ingestion result, the output field does fall back to
`raw_articles`, but `errors` stays empty — it does not contain exactly one
entry naming the stage (`call_flexible` only logs the unavailability). -/
theorem absent_collaborator_counterexample :
    envIngestOne.preprocessing = Behavior.absent ∧
    (run_full_pipeline envIngestOne none).raw_articles = [[("title", "a")]] ∧
    (run_full_pipeline envIngestOne none).preprocessed_articles =
      (run_full_pipeline envIngestOne none).raw_articles ∧
    (run_full_pipeline envIngestOne none).errors = [] :=
  ⟨rfl, rfl, rfl, rfl⟩

/-- C4 as amended: for every stage whose collaborator reference is absent
(and whose input selection finds data, where applicable), the wrapped
stage sets the stage's output field to the documented fallback — previous
stage's data for preprocessing/deduplication, the untouched field for
entity extraction, the empty sequence for ingestion/impact/query, and the
success flag `true` for embedding (an unavailable result being
indistinguishable from a side-effecting success) — and appends no entry
at all to `errors`: the unavailability is only logged. -/
theorem absent_collaborator_degrades (env : Env) (d : Nat) (s : WorkflowState) :
    (env.ingestion = Behavior.absent →
      (timed_stage "ingestion" d (ingestion_agent env) s).raw_articles = [] ∧
      (timed_stage "ingestion" d (ingestion_agent env) s).errors = s.errors) ∧
    (env.preprocessing = Behavior.absent → s.raw_articles.isEmpty = false →
      (timed_stage "preprocessing" d (preprocessing_agent env) s).preprocessed_articles =
        s.raw_articles ∧
      (timed_stage "preprocessing" d (preprocessing_agent env) s).errors = s.errors) ∧
    (env.deduplication = Behavior.absent →
      (pyOr s.preprocessed_articles s.raw_articles).isEmpty = false →
      (timed_stage "deduplication" d (deduplication_agent env) s).deduplicated_articles =
        pyOr s.preprocessed_articles s.raw_articles ∧
      (timed_stage "deduplication" d (deduplication_agent env) s).errors = s.errors) ∧
    (env.ner = Behavior.absent →
      (pyOr s.deduplicated_articles (pyOr s.preprocessed_articles s.raw_articles)).isEmpty = false →
      (timed_stage "ner" d (ner_agent env) s).extracted_entities = s.extracted_entities ∧
      (timed_stage "ner" d (ner_agent env) s).errors = s.errors) ∧
    (env.embedding = Behavior.absent →
      (pyOr s.deduplicated_articles (pyOr s.preprocessed_articles s.raw_articles)).isEmpty = false →
      (timed_stage "embedding" d (embedding_agent env) s).embeddings_indexed = true ∧
      (timed_stage "embedding" d (embedding_agent env) s).errors = s.errors) ∧
    (env.impact = Behavior.absent →
      (pyOr s.deduplicated_articles (pyOr s.preprocessed_articles s.raw_articles)).isEmpty = false →
      (timed_stage "impact_scoring" d (impact_scoring_agent env) s).impact_scores = [] ∧
      (timed_stage "impact_scoring" d (impact_scoring_agent env) s).errors = s.errors) ∧
    (env.query = Behavior.absent → (pyStrip s.query).isEmpty = false →
      (timed_stage "query" d (query_agent env) s).query_results = [] ∧
      (timed_stage "query" d (query_agent env) s).errors = s.errors) := by
  refine ⟨fun h => ?_, fun h hne => ?_, fun h hne => ?_, fun h hne => ?_,
          fun h hne => ?_, fun h hne => ?_, fun h hne => ?_⟩
  · constructor <;> simp [timed_stage, ingestion_agent, h, call_flexible]
  · constructor <;> simp [timed_stage, preprocessing_agent, h, hne, call_flexible]
  · constructor <;> simp [timed_stage, deduplication_agent, h, hne, call_flexible]
  · constructor <;> simp [timed_stage, ner_agent, h, hne, call_flexible]
  · constructor <;> simp [timed_stage, embedding_agent, h, hne, call_flexible]
  · constructor <;> simp [timed_stage, impact_scoring_agent, h, hne, call_flexible]
  · constructor <;> simp [timed_stage, query_agent, h, hne, call_flexible]

/-- A mid-run state with data in every upstream field and a non-blank
query, used to exercise each degraded path. -/
def sWit : WorkflowState :=
  { initState "hello" with
    raw_articles := [[("t", "x")]],
    preprocessed_articles := [[("t", "y")]],
    deduplicated_articles := [[("t", "z")]],
    extracted_entities := [[("e", "1")]] }

/-- Witness for the amended C4 theorem: all seven absent-collaborator
conclusions at the all-absent environment and a populated state. -/
theorem absent_collaborator_degrades_witness :
    ((timed_stage "ingestion" 0 (ingestion_agent envAllAbsent) sWit).raw_articles = [] ∧
      (timed_stage "ingestion" 0 (ingestion_agent envAllAbsent) sWit).errors = sWit.errors) ∧
    ((timed_stage "preprocessing" 0 (preprocessing_agent envAllAbsent) sWit).preprocessed_articles =
        sWit.raw_articles ∧
      (timed_stage "preprocessing" 0 (preprocessing_agent envAllAbsent) sWit).errors = sWit.errors) ∧
    ((timed_stage "deduplication" 0 (deduplication_agent envAllAbsent) sWit).deduplicated_articles =
        pyOr sWit.preprocessed_articles sWit.raw_articles ∧
      (timed_stage "deduplication" 0 (deduplication_agent envAllAbsent) sWit).errors = sWit.errors) ∧
    ((timed_stage "ner" 0 (ner_agent envAllAbsent) sWit).extracted_entities =
        sWit.extracted_entities ∧
      (timed_stage "ner" 0 (ner_agent envAllAbsent) sWit).errors = sWit.errors) ∧
    ((timed_stage "embedding" 0 (embedding_agent envAllAbsent) sWit).embeddings_indexed = true ∧
      (timed_stage "embedding" 0 (embedding_agent envAllAbsent) sWit).errors = sWit.errors) ∧
    ((timed_stage "impact_scoring" 0 (impact_scoring_agent envAllAbsent) sWit).impact_scores = [] ∧
      (timed_stage "impact_scoring" 0 (impact_scoring_agent envAllAbsent) sWit).errors = sWit.errors) ∧
    ((timed_stage "query" 0 (query_agent envAllAbsent) sWit).query_results = [] ∧
      (timed_stage "query" 0 (query_agent envAllAbsent) sWit).errors = sWit.errors) := by
  have h := absent_collaborator_degrades envAllAbsent 0 sWit
  exact ⟨h.1 rfl, h.2.1 rfl rfl, h.2.2.1 rfl rfl, h.2.2.2.1 rfl rfl,
         h.2.2.2.2.1 rfl rfl, h.2.2.2.2.2.1 rfl rfl, h.2.2.2.2.2.2 rfl (by decide)⟩

/-- C5 refutation: with articles available and the embedding collaborator
absent, `call_flexible` yields `None` and the agent runs
`bool(result) if result is not None else True`, so `embeddings_indexed`
ends `true` — contrary to the claim that it cannot be true when the
collaborator is absent. -/
theorem embeddings_absent_counterexample :
    envIngestOne.embedding = Behavior.absent ∧
    (run_full_pipeline envIngestOne none).embeddings_indexed = true :=
  ⟨rfl, rfl⟩

/-- C5 as amended: `embeddings_indexed` in the final state is true iff the
embedding stage had a non-empty input and the `call_flexible` outcome was
either a truthy returned value or `None`; since an absent reference, a
raised call and a returned `None` all yield `None`, the flag IS true in
those cases (with non-empty input), not false. -/
theorem embeddings_flag_characterization (env : Env) (q : Option String) :
    (run_full_pipeline env q).embeddings_indexed =
      (if (pyOr (pipe4 env q).deduplicated_articles
            (pyOr (pipe4 env q).preprocessed_articles (pipe4 env q).raw_articles)).isEmpty
       then false else embSuccess env.embedding) := by
  have hfin : (run_full_pipeline env q).embeddings_indexed =
      (pipe7 env q).embeddings_indexed := rfl
  obtain ⟨_, _, h7emb, _⟩ := pipe7_facts env q
  obtain ⟨_, _, _, _, h6emb⟩ := pipe6_proj env q
  rw [hfin, h7emb, h6emb]
  simp only [pipe5, timed_stage_spec]
  cases h : (pyOr (pipe4 env q).deduplicated_articles
      (pyOr (pipe4 env q).preprocessed_articles (pipe4 env q).raw_articles)).isEmpty with
  | true => simp [embedding_agent, h, stateOf]
  | false =>
      cases he : env.embedding with
      | absent => simp [embedding_agent, h, he, call_flexible, stateOf, embSuccess]
      | raises => simp [embedding_agent, h, he, call_flexible, stateOf, embSuccess]
      | returns v =>
          cases v <;> simp [embedding_agent, h, he, call_flexible, stateOf, embSuccess]

/-- C6 refutation: a whitespace-only query is truthy for the orchestrator
(`if st.query:`) but strips to empty inside the agent, so the trimmed
query is empty yet `stage_durations` does contain a `"query"` entry —
contradicting "no duration entry for query exists" in the skipped case. -/
theorem query_whitespace_counterexample :
    pyStrip " " = "" ∧
    ((run_full_pipeline envAllAbsent (some " ")).stage_durations.map DurEntry.stage).count
      "query" = 1 ∧
    (run_full_pipeline envAllAbsent (some " ")).query_results = [] := by
  refine ⟨by decide, by decide, rfl⟩

/-- C6 as amended: the query agent's work is skipped iff the stripped
query is empty (and then `query_results` ends empty), but the agent is
invoked — and a `"query"` duration entry recorded — iff the RAW query
string is non-empty: a whitespace-only query yields a `"query"` duration
entry despite the skip. -/
theorem query_skip_characterization (env : Env) (q : Option String) :
    ((pyStrip (q.getD "")).isEmpty = true → (run_full_pipeline env q).query_results = []) ∧
    ((run_full_pipeline env q).stage_durations.map DurEntry.stage).count "query" =
      (if (q.getD "").isEmpty then 0 else 1) := by
  obtain ⟨hdur, _, _, hqr⟩ := pipe7_facts env q
  have hfin : (run_full_pipeline env q).stage_durations = (pipe7 env q).stage_durations := rfl
  have hfinq : (run_full_pipeline env q).query_results = (pipe7 env q).query_results := rfl
  refine ⟨fun ht => by rw [hfinq]; exact hqr ht, ?_⟩
  rw [hfin, hdur]
  cases h : (q.getD "").isEmpty <;> simp [h]

/-- Witness for the amended C6 theorem at the whitespace-only query. -/
theorem query_skip_characterization_witness :
    (run_full_pipeline envAllAbsent (some " ")).query_results = [] ∧
    ((run_full_pipeline envAllAbsent (some " ")).stage_durations.map DurEntry.stage).count
      "query" = 1 := by
  have h := query_skip_characterization envAllAbsent (some " ")
  exact ⟨h.1 (by decide), by simpa using h.2⟩

/-- An option whose `isSome` is false is `none`. -/
theorem isSome_false_eq_none {α : Type} {o : Option α} (h : o.isSome = false) : o = none := by
  cases o with
  | none => rfl
  | some x => simp at h

/-- A falsy bundle has no alias keys at all, so every parsed array is
empty. -/
theorem bundle_falsy_arrays (b : Bundle) (h : bundleTruthy b = false) :
    bundleDocs b = [] ∧ bundleIds b = [] ∧ bundleDists b = [] ∧ bundleMetas b = [] := by
  simp only [bundleTruthy, Bool.or_eq_false_iff] at h
  obtain ⟨⟨⟨⟨⟨⟨⟨⟨⟨-, h1⟩, h2⟩, h3⟩, h4⟩, h5⟩, h6⟩, h7⟩, h8⟩, h9⟩ := h
  refine ⟨?_, ?_, ?_, ?_⟩ <;>
    simp [bundleDocs, bundleIds, bundleDists, bundleMetas, firstTruthy, unwrapOne,
      isSome_false_eq_none h1, isSome_false_eq_none h2, isSome_false_eq_none h3,
      isSome_false_eq_none h4, isSome_false_eq_none h5, isSome_false_eq_none h6,
      isSome_false_eq_none h7, isSome_false_eq_none h8, isSome_false_eq_none h9]

/-- C7: whenever the query collaborator returns a bundle (and the stripped
query is non-empty), the stage produces exactly one record per index up to
the longest of the four alias-resolved, once-unwrapped arrays, and each
record field is that array's entry at the index, or `none` where the array
is shorter. -/
theorem query_bundle_zip (env : Env) (d : Nat) (s : WorkflowState) (b : Bundle)
    (hq : (pyStrip s.query).isEmpty = false)
    (hb : env.query = Behavior.returns (some b)) :
    ((timed_stage "query" d (query_agent env) s).query_results).length =
      max (max (bundleDocs b).length (bundleIds b).length)
          (max (bundleDists b).length (bundleMetas b).length) ∧
    ∀ i : Nat, i < ((timed_stage "query" d (query_agent env) s).query_results).length →
      ((timed_stage "query" d (query_agent env) s).query_results)[i]? =
        some ⟨(bundleIds b)[i]?, (bundleDocs b)[i]?,
              (bundleDists b)[i]?, (bundleMetas b)[i]?⟩ := by
  have hres : (timed_stage "query" d (query_agent env) s).query_results =
      (if bundleTruthy b then parseBundle b else []) := by
    rw [timed_stage_spec]
    unfold query_agent
    simp [hq, hb, call_flexible, stateOf]
  cases ht : bundleTruthy b with
  | true =>
      rw [ht] at hres
      simp only [if_true] at hres
      constructor
      · rw [hres]
        simp [parseBundle]
      · intro i hi
        rw [hres] at hi ⊢
        simp only [parseBundle, List.length_map, List.length_range] at hi
        simp only [parseBundle]
        rw [List.getElem?_map, List.getElem?_range hi]
        simp [List.get?_eq_getElem?]
  | false =>
      obtain ⟨e1, e2, e3, e4⟩ := bundle_falsy_arrays b ht
      rw [ht] at hres
      simp only [Bool.false_eq_true, if_false] at hres
      constructor
      · rw [hres]; simp [e1, e2, e3, e4]
      · intro i hi
        rw [hres] at hi
        exact absurd hi (Nat.not_lt_zero i)

/-- The C7 scenario bundle: two documents but only one distance. -/
def bundleWit : Bundle :=
  { emptyBundle with documents := some [.str "d1", .str "d2"], distances := some [.num 1] }

/-- An environment whose query collaborator returns the scenario bundle. -/
def envC7 : Env := { envAllAbsent with query := .returns (some bundleWit) }

/-- Witness for C7: with `documents` of length 2 and `distances` of length
1, the stage yields two records and the second one's `distance` is absent
rather than a crash. -/
theorem query_bundle_zip_witness :
    ((timed_stage "query" 0 (query_agent envC7) (initState "tesla")).query_results).length = 2 ∧
    ((timed_stage "query" 0 (query_agent envC7) (initState "tesla")).query_results)[1]? =
      some ⟨none, some (QVal.str "d2"), none, none⟩ := by
  have h := query_bundle_zip envC7 0 (initState "tesla") bundleWit (by decide) rfl
  refine ⟨?_, ?_⟩
  · rw [h.1]; rfl
  · have h2 := h.2 1 (by rw [h.1]; decide)
    rw [h2]; rfl

/-- When the ingestion body raises, the state it carries is the entry
state: nothing was mutated before the raise. -/
theorem ingestion_agent_raise (env : Env) (s t : WorkflowState) (msg : String)
    (hr : ingestion_agent env s = .inr (t, msg)) : t = s := by
  unfold ingestion_agent at hr
  cases hc : call_flexible env.ingestion with
  | none => rw [hc] at hr; simp at hr
  | some r =>
      cases r with
      | table rows => rw [hc] at hr; simp at hr
      | pylist xs => rw [hc] at hr; simp at hr
      | iterable xs => rw [hc] at hr; simp at hr
      | noniter tr =>
          rw [hc] at hr
          cases tr with
          | true => simp at hr; exact hr.1.symm
          | false => simp at hr

/-- When the preprocessing body raises, the carried state is the entry
state. -/
theorem preprocessing_agent_raise (env : Env) (s t : WorkflowState) (msg : String)
    (hr : preprocessing_agent env s = .inr (t, msg)) : t = s := by
  unfold preprocessing_agent at hr
  cases hE : s.raw_articles.isEmpty <;> simp only [hE] at hr
  case false =>
    cases hc : call_flexible env.preprocessing with
    | none => rw [hc] at hr; simp at hr
    | some r =>
        cases r with
        | table rows => rw [hc] at hr; simp at hr
        | pylist xs => rw [hc] at hr; simp at hr
        | iterable xs => rw [hc] at hr; simp at hr
        | noniter tr => rw [hc] at hr; simp at hr; exact hr.1.symm
  case true => simp at hr

/-- When the deduplication body raises, the carried state is the entry
state. -/
theorem deduplication_agent_raise (env : Env) (s t : WorkflowState) (msg : String)
    (hr : deduplication_agent env s = .inr (t, msg)) : t = s := by
  unfold deduplication_agent at hr
  cases hE : (pyOr s.preprocessed_articles s.raw_articles).isEmpty <;> simp only [hE] at hr
  case false =>
    cases hc : call_flexible env.deduplication with
    | none => rw [hc] at hr; simp at hr
    | some r =>
        cases r with
        | table rows => rw [hc] at hr; simp at hr
        | pylist xs => rw [hc] at hr; simp at hr
        | iterable xs => rw [hc] at hr; simp at hr
        | noniter tr => rw [hc] at hr; simp at hr; exact hr.1.symm
  case true => simp at hr

/-- When the impact-scoring body raises, the carried state is the entry
state. -/
theorem impact_scoring_agent_raise (env : Env) (s t : WorkflowState) (msg : String)
    (hr : impact_scoring_agent env s = .inr (t, msg)) : t = s := by
  unfold impact_scoring_agent at hr
  cases hE : (pyOr s.deduplicated_articles
      (pyOr s.preprocessed_articles s.raw_articles)).isEmpty <;> simp only [hE] at hr
  case false =>
    cases hc : call_flexible env.impact with
    | none => rw [hc] at hr; simp at hr
    | some r =>
        cases r with
        | table rows => rw [hc] at hr; simp at hr
        | pylist xs => rw [hc] at hr; simp at hr
        | iterable xs => rw [hc] at hr; simp at hr
        | noniter tr => rw [hc] at hr; simp at hr; exact hr.1.symm
  case true => simp at hr

/-- C8: whenever the wrapped stage function catches a fault raised by any
of the seven stage bodies, it returns the entry state unmodified apart
from the appended error-flagged duration entry and the appended formatted
error string — no other field differs — and the run proceeds (the wrapper
returns normally). -/
theorem stage_wrapper_raise_frame (env : Env) (d : Nat) (s : WorkflowState) :
    (∀ t msg, ingestion_agent env s = .inr (t, msg) →
      timed_stage "ingestion" d (ingestion_agent env) s =
        { s with stage_durations := s.stage_durations ++ [⟨"ingestion", d, true⟩],
                 errors := s.errors ++ ["ingestion" ++ ": " ++ msg ++ "\n<trace>"] }) ∧
    (∀ t msg, preprocessing_agent env s = .inr (t, msg) →
      timed_stage "preprocessing" d (preprocessing_agent env) s =
        { s with stage_durations := s.stage_durations ++ [⟨"preprocessing", d, true⟩],
                 errors := s.errors ++ ["preprocessing" ++ ": " ++ msg ++ "\n<trace>"] }) ∧
    (∀ t msg, deduplication_agent env s = .inr (t, msg) →
      timed_stage "deduplication" d (deduplication_agent env) s =
        { s with stage_durations := s.stage_durations ++ [⟨"deduplication", d, true⟩],
                 errors := s.errors ++ ["deduplication" ++ ": " ++ msg ++ "\n<trace>"] }) ∧
    (∀ t msg, ner_agent env s = .inr (t, msg) →
      timed_stage "ner" d (ner_agent env) s =
        { s with stage_durations := s.stage_durations ++ [⟨"ner", d, true⟩],
                 errors := s.errors ++ ["ner" ++ ": " ++ msg ++ "\n<trace>"] }) ∧
    (∀ t msg, embedding_agent env s = .inr (t, msg) →
      timed_stage "embedding" d (embedding_agent env) s =
        { s with stage_durations := s.stage_durations ++ [⟨"embedding", d, true⟩],
                 errors := s.errors ++ ["embedding" ++ ": " ++ msg ++ "\n<trace>"] }) ∧
    (∀ t msg, impact_scoring_agent env s = .inr (t, msg) →
      timed_stage "impact_scoring" d (impact_scoring_agent env) s =
        { s with stage_durations := s.stage_durations ++ [⟨"impact_scoring", d, true⟩],
                 errors := s.errors ++ ["impact_scoring" ++ ": " ++ msg ++ "\n<trace>"] }) ∧
    (∀ t msg, query_agent env s = .inr (t, msg) →
      timed_stage "query" d (query_agent env) s =
        { s with stage_durations := s.stage_durations ++ [⟨"query", d, true⟩],
                 errors := s.errors ++ ["query" ++ ": " ++ msg ++ "\n<trace>"] }) := by
  refine ⟨?_, ?_, ?_, ?_, ?_, ?_, ?_⟩ <;> intro t msg hr
  · have ht := ingestion_agent_raise env s t msg hr
    subst ht
    simp [timed_stage, hr]
  · have ht := preprocessing_agent_raise env s t msg hr
    subst ht
    simp [timed_stage, hr]
  · have ht := deduplication_agent_raise env s t msg hr
    subst ht
    simp [timed_stage, hr]
  · obtain ⟨ee, cs, hsh⟩ := ner_agent_shape env s
    rw [hsh] at hr
    exact absurd hr (by simp)
  · obtain ⟨b, cs, hsh⟩ := embedding_agent_shape env s
    rw [hsh] at hr
    exact absurd hr (by simp)
  · have ht := impact_scoring_agent_raise env s t msg hr
    subst ht
    simp [timed_stage, hr]
  · obtain ⟨qr, cs, hsh⟩ := query_agent_shape env s
    rw [hsh] at hr
    exact absurd hr (by simp)

/-- An environment in which ingestion yields one article and the
preprocessing collaborator returns a truthy non-iterable, making the
preprocessing body raise `TypeError`. -/
def envC8 : Env :=
  { envAllAbsent with
    ingestion := .returns (some (.pylist [[("t", "x")]])),
    preprocessing := .returns (some (.noniter true)) }

/-- Witness for C8 at a concrete raising stage: the wrapped preprocessing
stage returns the entry state plus exactly the two appended entries. -/
theorem stage_wrapper_raise_frame_witness :
    timed_stage "preprocessing" 0 (preprocessing_agent envC8) (pipe1 envC8 none) =
      { pipe1 envC8 none with
        stage_durations := (pipe1 envC8 none).stage_durations ++ [⟨"preprocessing", 0, true⟩],
        errors := (pipe1 envC8 none).errors ++
          ["preprocessing" ++ ": " ++
            "TypeError: run_preprocessing must return DataFrame/list/iterable" ++ "\n<trace>"] } :=
  (stage_wrapper_raise_frame envC8 0 (pipe1 envC8 none)).2.1 (pipe1 envC8 none)
    "TypeError: run_preprocessing must return DataFrame/list/iterable" rfl

/-- C9 refutation: after a successful ingestion stage — well before the
finalizer runs — `stats` already holds the `raw_articles_count` key
written by the ingestion agent, so it is not the empty mapping. -/
theorem stats_before_finalizer_counterexample :
    (pipe6 envIngestOne none).stats = [("raw_articles_count", StatVal.nat 1)] ∧
    (pipe6 envIngestOne none).stats ≠ [] := by
  refine ⟨rfl, fun hc => ?_⟩
  rw [show (pipe6 envIngestOne none).stats =
    [("raw_articles_count", StatVal.nat 1)] from rfl] at hc
  exact List.noConfusion hc

/-- C9 as amended: the ingestion agent writes the single key
`raw_articles_count` into `stats` (so before the finalizer `stats` is
either empty — ingestion body raised — or exactly that one key); no other
stage agent writes `stats`; and the finalizer replaces `stats` wholesale
with its nine-key summary, so the final mapping comes only from the
finalizer. -/
theorem stats_written_by_ingestion_then_finalizer (env : Env) (q : Option String) :
    (pipe7 env q).stats = (pipe1 env q).stats ∧
    ((pipe1 env q).stats = [] ∨
      ∃ n, (pipe1 env q).stats = [("raw_articles_count", StatVal.nat n)]) ∧
    (run_full_pipeline env q).stats.map Prod.fst =
      ["workflow_complete", "total_duration_seconds", "stages_completed", "errors_count",
       "timestamp", "stage_breakdown", "raw_articles_count", "unique_articles_count",
       "query_results_count"] := by
  obtain ⟨_, h7st, _, _⟩ := pipe7_facts env q
  obtain ⟨_, _, hst, _⟩ := pipe6_facts env q
  exact ⟨by rw [h7st, hst], pipe1_stats env q, by simp [run_full_pipeline, finalize_agent]⟩

/-- C10: whenever the preprocessing, deduplication or impact-scoring agent
takes a degraded path — its fallback chain yields no input, or the
collaborator call yields the absent (`None`) outcome — it sets its output
field to the empty sequence or its fallback input and returns without
advancing `current_stage`, which keeps naming the last fully completed
stage. -/
theorem degraded_path_no_stage_advance (env : Env) (d : Nat) (s : WorkflowState) :
    (s.raw_articles.isEmpty = true →
      (timed_stage "preprocessing" d (preprocessing_agent env) s).preprocessed_articles = [] ∧
      (timed_stage "preprocessing" d (preprocessing_agent env) s).current_stage =
        s.current_stage) ∧
    (s.raw_articles.isEmpty = false → call_flexible env.preprocessing = none →
      (timed_stage "preprocessing" d (preprocessing_agent env) s).preprocessed_articles =
        s.raw_articles ∧
      (timed_stage "preprocessing" d (preprocessing_agent env) s).current_stage =
        s.current_stage) ∧
    ((pyOr s.preprocessed_articles s.raw_articles).isEmpty = true →
      (timed_stage "deduplication" d (deduplication_agent env) s).deduplicated_articles = [] ∧
      (timed_stage "deduplication" d (deduplication_agent env) s).current_stage =
        s.current_stage) ∧
    ((pyOr s.preprocessed_articles s.raw_articles).isEmpty = false →
      call_flexible env.deduplication = none →
      (timed_stage "deduplication" d (deduplication_agent env) s).deduplicated_articles =
        pyOr s.preprocessed_articles s.raw_articles ∧
      (timed_stage "deduplication" d (deduplication_agent env) s).current_stage =
        s.current_stage) ∧
    ((pyOr s.deduplicated_articles (pyOr s.preprocessed_articles s.raw_articles)).isEmpty = true →
      (timed_stage "impact_scoring" d (impact_scoring_agent env) s).impact_scores = [] ∧
      (timed_stage "impact_scoring" d (impact_scoring_agent env) s).current_stage =
        s.current_stage) ∧
    ((pyOr s.deduplicated_articles (pyOr s.preprocessed_articles s.raw_articles)).isEmpty = false →
      call_flexible env.impact = none →
      (timed_stage "impact_scoring" d (impact_scoring_agent env) s).impact_scores = [] ∧
      (timed_stage "impact_scoring" d (impact_scoring_agent env) s).current_stage =
        s.current_stage) := by
  refine ⟨fun h => ?_, fun h hc => ?_, fun h => ?_, fun h hc => ?_, fun h => ?_, fun h hc => ?_⟩
  · constructor <;> simp [timed_stage, preprocessing_agent, h]
  · constructor <;> simp [timed_stage, preprocessing_agent, h, hc]
  · constructor <;> simp [timed_stage, deduplication_agent, h]
  · constructor <;> simp [timed_stage, deduplication_agent, h, hc]
  · constructor <;> simp [timed_stage, impact_scoring_agent, h]
  · constructor <;> simp [timed_stage, impact_scoring_agent, h, hc]

/-- Witness for C10: each degraded path at the all-absent environment, on
the empty initial state (empty-input skips) and on a populated state
(absent-result fallbacks). -/
theorem degraded_path_no_stage_advance_witness :
    ((timed_stage "preprocessing" 0 (preprocessing_agent envAllAbsent)
        (initState "")).preprocessed_articles = [] ∧
      (timed_stage "preprocessing" 0 (preprocessing_agent envAllAbsent)
        (initState "")).current_stage = (initState "").current_stage) ∧
    ((timed_stage "preprocessing" 0 (preprocessing_agent envAllAbsent)
        sWit).preprocessed_articles = sWit.raw_articles ∧
      (timed_stage "preprocessing" 0 (preprocessing_agent envAllAbsent)
        sWit).current_stage = sWit.current_stage) ∧
    ((timed_stage "deduplication" 0 (deduplication_agent envAllAbsent)
        (initState "")).deduplicated_articles = [] ∧
      (timed_stage "deduplication" 0 (deduplication_agent envAllAbsent)
        (initState "")).current_stage = (initState "").current_stage) ∧
    ((timed_stage "deduplication" 0 (deduplication_agent envAllAbsent)
        sWit).deduplicated_articles = pyOr sWit.preprocessed_articles sWit.raw_articles ∧
      (timed_stage "deduplication" 0 (deduplication_agent envAllAbsent)
        sWit).current_stage = sWit.current_stage) ∧
    ((timed_stage "impact_scoring" 0 (impact_scoring_agent envAllAbsent)
        (initState "")).impact_scores = [] ∧
      (timed_stage "impact_scoring" 0 (impact_scoring_agent envAllAbsent)
        (initState "")).current_stage = (initState "").current_stage) ∧
    ((timed_stage "impact_scoring" 0 (impact_scoring_agent envAllAbsent)
        sWit).impact_scores = [] ∧
      (timed_stage "impact_scoring" 0 (impact_scoring_agent envAllAbsent)
        sWit).current_stage = sWit.current_stage) := by
  have h1 := degraded_path_no_stage_advance envAllAbsent 0 (initState "")
  have h2 := degraded_path_no_stage_advance envAllAbsent 0 sWit
  exact ⟨h1.1 rfl, h2.2.1 rfl rfl, h1.2.2.1 rfl, h2.2.2.2.1 rfl rfl,
         h1.2.2.2.2.1 rfl, h2.2.2.2.2.2 rfl rfl⟩
